import Mathlib

/-!
Shallow embedding of the Panorama health service front-end
(`src/service/service.go`).  The observation store, the hold-buffer cache,
the inference engine and the exchange protocol live outside the service
source; where the service calls into them they are modelled from the
specification, and each such definition's doc comment starts with
`Modelled from the spec:`.  Durations and timestamps are in seconds,
represented as `Nat`.
-/

namespace Panorama

-- Constants from the `const` block of `service.go` (durations in seconds).
def HANDLE_START : Nat := 10000

def GC_FREQUENCY : Nat := 180

def GC_THRESHOLD : Nat := 300

def GC_RELATIVE : Bool := true

def HOLD_TIME : Nat := 180

def HOLD_LIST_LEN : Nat := 60

/-- A health report: observer identity, subject identity, and the timestamp
of its observation (`none` models a nil observation). -/
structure Report where
  observer : String
  subject : String
  observation : Option Nat
deriving DecidableEq, Repr

/-- Structural validity of a report: observer and subject present and the
observation non-nil (spec §4.1: "On structural failure (missing
observer/subject, nil observation) return FAILED"). -/
def Report.structOk (r : Report) : Bool :=
  !(r.observer == "") && !(r.subject == "") && r.observation.isSome

/-- A registration entry (`dt.Registration`): module name, observer
identity, the assigned handle and the registration time. -/
structure Registration where
  module : String
  observer : String
  handle : Nat
  time : Nat
deriving DecidableEq, Repr

/-- Result codes of the store's `AddReport` (`store.REPORT_*`). -/
inductive ReportCode
  | accepted
  | ignored
  | failed
deriving DecidableEq, Repr

/-- Modelled from the spec: the observation store (`store.RawHealthStorage`,
not under `src/`).  The watch list maps each subject to the time observation
began; `reports` is the append log of accepted reports, from which views and
panoramas are derived. -/
structure StoreState where
  watchList : List (String × Nat)
  reports : List Report
deriving DecidableEq, Repr

/-- Modelled from the spec: `AddSubject(subject) → bool` is idempotent,
records the current time if new, and returns whether newly added. -/
def StoreState.addSubject (st : StoreState) (subject : String) (now : Nat) :
    Bool × StoreState :=
  if (st.watchList.lookup subject).isSome then (false, st)
  else (true, { st with watchList := (subject, now) :: st.watchList })

/-- Modelled from the spec: `AddReport(report, filter)`.  On structural
failure return `FAILED`; when `filter` is set and the subject is not in the
watch list return `IGNORED`; otherwise accept and append. -/
def StoreState.addReport (st : StoreState) (r : Report) (filter : Bool) :
    ReportCode × StoreState :=
  if !r.structOk then (.failed, st)
  else if filter && (st.watchList.lookup r.subject).isNone then (.ignored, st)
  else (.accepted, { st with reports := st.reports ++ [r] })

/-- Modelled from the spec: `GetLatestReport(subject)` is the most recent
observation about the subject across all observers; `none` if none. -/
def StoreState.getLatestReport (st : StoreState) (subject : String) : Option Report :=
  (st.reports.filter (fun r => r.subject == subject)).foldl
    (fun acc r =>
      match acc with
      | none => some r
      | some b => if b.observation.getD 0 ≤ r.observation.getD 0 then some r else some b)
    none

/-- Modelled from the spec: the view of one observer about one subject. -/
def StoreState.viewOf (st : StoreState) (subject observer : String) : List Report :=
  st.reports.filter (fun r => r.subject == subject && r.observer == observer)

/-- Modelled from the spec: `GetPanorama(subject)` returns the full
observer-indexed map of views, or `none` if the subject is unknown. -/
def StoreState.getPanorama (st : StoreState) (subject : String) :
    Option (List (String × List Report)) :=
  let obs := ((st.reports.filter (fun r => r.subject == subject)).map
    (fun r => r.observer)).dedup
  if obs.isEmpty then none
  else some (obs.map (fun o => (o, st.viewOf subject o)))

/-- Modelled from the spec: `GetView(subject, observer)`, `none` if unknown. -/
def StoreState.getView (st : StoreState) (subject observer : String) :
    Option (List Report) :=
  let v := st.viewOf subject observer
  if v.isEmpty then none else some v

/-- Modelled from the spec: the hold buffer (`store.CacheList`, not under
`src/`): a TTL-indexed, length-bounded cache from subject to a list of
(insert-time, report) entries. -/
structure CacheList where
  ttl : Nat
  bound : Nat
  items : List (String × List (Nat × Report))
deriving DecidableEq, Repr

/-- Modelled from the spec: `Set(subject, report)` inserts, evicting
oldest-first when the per-subject length exceeds the bound. -/
def CacheList.set (c : CacheList) (subject : String) (r : Report) (now : Nat) :
    CacheList :=
  let cur := (c.items.lookup subject).getD []
  let grown := cur ++ [(now, r)]
  let bounded := if grown.length > c.bound then grown.drop (grown.length - c.bound)
    else grown
  { c with items := (subject, bounded) :: c.items.filter (fun e => e.1 != subject) }

/-- Modelled from the spec: `Get(subject)` returns (without removing) the
non-expired entries for the subject. -/
def CacheList.get (c : CacheList) (subject : String) (now : Nat) :
    List (Nat × Report) :=
  ((c.items.lookup subject).getD []).filter (fun e => now < e.1 + c.ttl)

/-- Modelled from the spec: `Empty(subject)` clears the subject's list. -/
def CacheList.empty (c : CacheList) (subject : String) : CacheList :=
  { c with items := c.items.filter (fun e => e.1 != subject) }

/-- Hold-buffer configuration (`BufConfig`): TTL in seconds and per-subject
length cap; zero means unconfigured. -/
structure BufConfig where
  holdTime : Nat
  holdListLen : Nat
deriving DecidableEq, Repr

/-- Garbage-collection configuration (`GCConfig`). -/
structure GCConfig where
  enable : Bool
  frequency : Nat
  threshold : Nat
  relative : Bool
deriving DecidableEq, Repr

/-- Server configuration (`dt.HealthServerConfig`), restricted to the fields
the service front-end reads. -/
structure HealthServerConfig where
  id : String
  addr : String
  subjects : List String
  filterSubmission : Bool
  dbFile : String
  bufConfig : BufConfig
  gcConfig : GCConfig
deriving DecidableEq, Repr

/-- A per-subject inference record; its aggregation content is outside the
service source and not needed by any claim. -/
structure Inference where
  subject : String
deriving DecidableEq, Repr

/-- An asynchronous task spawned with `go` by a service handler. -/
inductive AsyncTask
  | analyze (report : Report) (checkHold : Bool)
  | propagateReport (report : Report)
  | subscribeSubject (subject : String)
  | unsubscribeSubject (subject : String)
deriving DecidableEq, Repr

/-- The service state (`HealthGServer`).  The inference engine's queue and
result map and the exchange's peer-interest map are modelled from the spec;
`pending` records spawned asynchronous tasks; `serverStarted` models
`self.s != nil`; `dbNonNil`/`dbOpen` model the persistence sink handle and
whether it is open.  The package-level GC variables are reified as fields. -/
structure HealthGServer where
  config : HealthServerConfig
  store : StoreState
  holdBuffer : CacheList
  registrations : List (Nat × Registration)
  oldRegistrations : Option (List (Nat × Registration))
  nextHandle : Nat
  inferenceRunning : Bool
  inferQueue : List String
  inferences : List (String × Inference)
  interested : List (String × String)
  pending : List AsyncTask
  serverStarted : Bool
  dbNonNil : Bool
  dbOpen : Bool
  gcFrequency : Nat
  gcThreshold : Nat
  gcRelative : Bool
  gcSpawned : Bool
deriving DecidableEq, Repr

/-- Constructor `NewHealthGServer` (`service.go` lines 58–88): fresh handle
table with `next_handle = HANDLE_START`, hold buffer from `BufConfig` (with
defaults when `HoldTime` is unconfigured), and the GC variables from
`GCConfig` (zero frequency when GC is disabled). -/
def newHealthGServer (config : HealthServerConfig) : HealthGServer :=
  { config := config
    store := { watchList := config.subjects.map (fun s => (s, 0)), reports := [] }
    holdBuffer :=
      if config.bufConfig.holdTime > 0 then
        { ttl := config.bufConfig.holdTime, bound := config.bufConfig.holdListLen,
          items := [] }
      else
        { ttl := HOLD_TIME, bound := HOLD_LIST_LEN, items := [] }
    registrations := []
    oldRegistrations := none
    nextHandle := HANDLE_START
    inferenceRunning := false
    inferQueue := []
    inferences := []
    interested := []
    pending := []
    serverStarted := false
    dbNonNil := false
    dbOpen := false
    gcFrequency :=
      if config.gcConfig.enable then
        (if config.gcConfig.frequency > 0 then config.gcConfig.frequency
         else GC_FREQUENCY)
      else 0
    gcThreshold :=
      if config.gcConfig.enable then
        (if config.gcConfig.frequency > 0 then config.gcConfig.threshold
         else GC_THRESHOLD)
      else 0
    gcRelative :=
      if config.gcConfig.enable then config.gcConfig.relative else GC_RELATIVE
    gcSpawned := false }

/-- RPC wrapper `GetLatestReport` (`service.go` lines 278–284). -/
def HealthGServer.getLatestReportRPC (sv : HealthGServer) (subject : String) :
    Except String Report :=
  match sv.store.getLatestReport subject with
  | none => .error ("No report for " ++ subject)
  | some r => .ok r

/-- RPC wrapper `GetPanorama` (`service.go` lines 286–292). -/
def HealthGServer.getPanoramaRPC (sv : HealthGServer) (subject : String) :
    Except String (List (String × List Report)) :=
  match sv.store.getPanorama subject with
  | none => .error ("No panorama for " ++ subject)
  | some p => .ok p

/-- RPC wrapper `GetView` (`service.go` lines 294–300). -/
def HealthGServer.getViewRPC (sv : HealthGServer) (subject observer : String) :
    Except String (List Report) :=
  match sv.store.getView subject observer with
  | none => .error ("No view for " ++ subject)
  | some v => .ok v

/-- RPC wrapper `GetInference` (`service.go` lines 302–308). -/
def HealthGServer.getInferenceRPC (sv : HealthGServer) (subject : String) :
    Except String Inference :=
  match sv.inferences.lookup subject with
  | none => .error "inference does not exist for view"
  | some i => .ok i

/-- First registration entry matching the given module and observer, as the
range-loop in `Register` scans for. -/
def findReg (l : List (Nat × Registration)) (m o : String) :
    Option (Nat × Registration) :=
  l.find? (fun p => p.2.module == m && p.2.observer == o)

/-- Maximum handle occurring in the registration table (0 when empty), as the
range-loop in `Register` computes. -/
def maxHandle (l : List (Nat × Registration)) : Nat :=
  l.foldl (fun a p => max a p.1) 0

/-- RPC `Register` (`service.go` lines 149–177): return the existing handle
for a matching (module, observer) pair, else allocate
`max(next_handle, max_existing + 1)`, add the observer to the watch list,
insert the registration, and advance `next_handle`. -/
def HealthGServer.register (sv : HealthGServer) (m o : String) (now : Nat) :
    Nat × HealthGServer :=
  match findReg sv.registrations m o with
  | some p => (p.1, sv)
  | none =>
    let mh := maxHandle sv.registrations
    let h := if sv.nextHandle > mh then sv.nextHandle else mh + 1
    let store' := (sv.store.addSubject o now).2
    let reg : Registration := { module := m, observer := o, handle := h, time := now }
    (h, { sv with
            store := store'
            registrations := (h, reg) :: sv.registrations
            nextHandle := h + 1 })

/-- Run a sequence of `Register` calls, collecting the returned handles. -/
def runRegisters (sv : HealthGServer) (reqs : List (String × String)) (now : Nat) :
    List Nat × HealthGServer :=
  match reqs with
  | [] => ([], sv)
  | (m, o) :: rest =>
    let step := sv.register m o now
    let tail := runRegisters step.2 rest now
    (step.1 :: tail.1, tail.2)

/-- Status values of the `SubmitReport` reply (`pb.SubmitReportReply_Status`). -/
inductive SubmitStatus
  | accepted
  | ignored
  | failed
deriving DecidableEq, Repr

/-- Handle-validation block of `SubmitReport` (`service.go` lines 180–218):
accept a handle present in the active registrations; otherwise consult the
old (restored) registrations, and when the stored observer matches the
report's observer, promote the entry into the active map and add the
observer to the watch list. -/
def HealthGServer.validateHandle (sv : HealthGServer) (handle : Nat)
    (report : Report) (now : Nat) : Bool × HealthGServer :=
  match sv.registrations.lookup handle with
  | some _ => (true, sv)
  | none =>
    match sv.oldRegistrations with
    | none => (false, sv)
    | some om =>
      match om.lookup handle with
      | none => (false, sv)
      | some oldReg =>
        if oldReg.observer == report.observer then
          (true, { sv with
                     registrations := (handle, oldReg) :: sv.registrations
                     store := (sv.store.addSubject oldReg.observer now).2 })
        else (false, sv)

/-- Ingestion block of `SubmitReport` (`service.go` lines 220–236): add the
report with `filter=false`; `IGNORED` yields the should-not-ignore error,
`ACCEPTED` spawns asynchronous analysis and propagation. -/
def HealthGServer.ingestLocal (sv : HealthGServer) (report : Report) :
    Except String SubmitStatus × HealthGServer :=
  let ingest := sv.store.addReport report false
  let sv1 := { sv with store := ingest.2 }
  match ingest.1 with
  | .ignored =>
    (.error "Should not ignore local report. Probably due to a bug", sv1)
  | .failed => (.ok .failed, sv1)
  | .accepted =>
    (.ok .accepted,
     { sv1 with pending := sv1.pending ++
         [.analyze report true, .propagateReport report] })

/-- RPC `SubmitReport` (`service.go` lines 179–237): handle validation
followed by local ingestion; an invalid handle fails with the
invalid-handle error and leaves the state unchanged. -/
def HealthGServer.submitReport (sv : HealthGServer) (handle : Nat) (report : Report)
    (now : Nat) : Except String SubmitStatus × HealthGServer :=
  let validated := sv.validateHandle handle report now
  if !validated.1 then (.error "Invalid submission handle", validated.2)
  else validated.2.ingestLocal report

/-- Kinds of `LearnReport` requests (`pb.LearnReportRequest_Kind`). -/
inductive LearnKind
  | normal
  | subscription
  | unsubscription
deriving DecidableEq, Repr

/-- Status values of the `LearnReport` reply (`pb.LearnReportReply_Status`). -/
inductive LearnStatus
  | accepted
  | ignored
  | failed
deriving DecidableEq, Repr

/-- RPC `LearnReport` (`service.go` lines 239–276).  `NORMAL` ingests with
`filter = FilterSubmission`: `IGNORED` parks the report in the hold buffer,
`ACCEPTED` records the source as interested and spawns asynchronous
analysis, `FAILED` replies failed.  `SUBSCRIPTION`/`UNSUBSCRIPTION` update
the peer-interest map. -/
def HealthGServer.learnReport (sv : HealthGServer) (sourceId : String)
    (kind : LearnKind) (report : Report) (now : Nat) :
    LearnStatus × HealthGServer :=
  match kind with
  | .normal =>
    let ingest := sv.store.addReport report sv.config.filterSubmission
    let sv1 := { sv with store := ingest.2 }
    match ingest.1 with
    | .ignored =>
      (.ignored, { sv1 with holdBuffer := sv1.holdBuffer.set report.subject report now })
    | .failed => (.failed, sv1)
    | .accepted =>
      (.accepted, { sv1 with
                      interested := (sourceId, report.subject) :: sv1.interested
                      pending := sv1.pending ++ [.analyze report false] })
  | .subscription =>
    (.accepted, { sv with interested := (sourceId, report.subject) :: sv.interested })
  | .unsubscription =>
    (.accepted, { sv with
        interested := sv.interested.filter
          (fun e => !(e.1 == sourceId && e.2 == report.subject)) })

/-- Body of the `AnalyzeReport` goroutine (`service.go` lines 373–393).
When `checkHold` is set and the hold buffer has non-expired entries for the
subject, each is re-ingested with `filter=false`, the subject's hold-buffer
entry is cleared and a subscription broadcast is spawned; in every case the
report's subject is enqueued for inference (`InferReportAsync`). -/
def HealthGServer.analyzeReport (sv : HealthGServer) (report : Report)
    (checkHold : Bool) (now : Nat) : HealthGServer :=
  let sv1 :=
    if checkHold then
      let items := sv.holdBuffer.get report.subject now
      if items.isEmpty then sv
      else
        let drained := items.foldl
          (fun acc e => { acc with store := (acc.store.addReport e.2 false).2 }) sv
        { drained with
            holdBuffer := drained.holdBuffer.empty report.subject
            pending := drained.pending ++ [.subscribeSubject report.subject] }
    else sv
  { sv1 with inferQueue := sv1.inferQueue ++ [report.subject] }

/-- RPC `Observe` (`service.go` lines 310–314): add the subject to the watch
list and spawn a subscription broadcast. -/
def HealthGServer.observe (sv : HealthGServer) (subject : String) (now : Nat) :
    Bool × HealthGServer :=
  let added := sv.store.addSubject subject now
  (added.1, { sv with
                store := added.2
                pending := sv.pending ++ [.subscribeSubject subject] })

/-- Modelled from the spec: the store's `GC(threshold, relative)` (not under
`src/`): drop every observation older than the cutoff (`latest-in-view −
threshold` when relative, else `now − threshold`) and return the per-subject
counts of retired observations (subjects with retirements only). -/
def storeGC (st : StoreState) (threshold : Nat) (relative : Bool) (now : Nat) :
    StoreState × List (String × Nat) :=
  let viewMax : Report → Nat := fun r =>
    (st.reports.filter
      (fun x => x.subject == r.subject && x.observer == r.observer)).foldl
      (fun a x => max a (x.observation.getD 0)) 0
  let retire : Report → Bool := fun r =>
    r.observation.getD 0 < (if relative then viewMax r - threshold
                            else now - threshold)
  let dropped := st.reports.filter retire
  let subjects := (dropped.map (fun r => r.subject)).dedup
  ({ st with reports := st.reports.filter (fun r => !retire r) },
   subjects.map (fun s => (s, (dropped.filter (fun r => r.subject == s)).length)))

/-- One iteration of the background GC loop (`service.go` lines 357–371,
loop body): call the store's GC with the configured threshold and relative
flag and enqueue a re-inference for every subject in the retired map. -/
def HealthGServer.gcIter (sv : HealthGServer) (now : Nat) : HealthGServer :=
  let gcd := storeGC sv.store sv.gcThreshold sv.gcRelative now
  { sv with
      store := gcd.1
      inferQueue := sv.inferQueue ++ gcd.2.map (fun p => p.1) }

/-- The background GC loop (`service.go` lines 357–371), fuelled: the server
handle is checked at the head of each iteration; the result also counts the
number of GC calls performed. -/
def HealthGServer.gcLoop (sv : HealthGServer) (now : Nat) :
    Nat → HealthGServer × Nat
  | 0 => (sv, 0)
  | fuel + 1 =>
    if sv.serverStarted then
      let next := (sv.gcIter now).gcLoop now fuel
      (next.1, next.2 + 1)
    else (sv, 0)

/-- RPC-server lifecycle `Start` (`service.go` lines 90–129): fails when
already started or when listening fails; otherwise marks the server
started, opens the persistence sink (reading old registrations on
success), starts the inference worker, and spawns the GC loop when
`gc_frequency > 0`. -/
def HealthGServer.start (sv : HealthGServer) (listenOk : Bool) (dbOpenOk : Bool)
    (persisted : Option (List (Nat × Registration))) :
    Except String Unit × HealthGServer :=
  if sv.serverStarted then (.error "HealthGServer is already started", sv)
  else if !listenOk then
    (.error ("Fail to register RPC server at " ++ sv.config.addr), sv)
  else
    let sv1 := { sv with serverStarted := true, dbNonNil := true }
    let sv2 :=
      if dbOpenOk then
        { sv1 with dbOpen := true, oldRegistrations := persisted }
      else sv1
    (.ok (), { sv2 with
                 inferenceRunning := true
                 gcSpawned := sv2.gcFrequency > 0 })

/-- RPC-server lifecycle `Stop` (`service.go` lines 131–147): fails when not
started; otherwise clears the server handle, stops the inference worker and
closes the persistence sink when it is non-nil. -/
def HealthGServer.stop (sv : HealthGServer) (graceful : Bool) :
    Except String Unit × HealthGServer :=
  if !sv.serverStarted then (.error "HealthGServer has not started", sv)
  else
    (.ok (), { sv with
                 serverStarted := false
                 inferenceRunning := false
                 dbOpen := if sv.dbNonNil then false else sv.dbOpen })

/-! Concrete inputs shared by the witness theorems. -/

def cfgW : HealthServerConfig :=
  { id := "n1", addr := "a1", subjects := ["db0"], filterSubmission := true,
    dbFile := "", bufConfig := { holdTime := 0, holdListLen := 0 },
    gcConfig := { enable := false, frequency := 0, threshold := 0, relative := true } }

def svW : HealthGServer := newHealthGServer cfgW

def svRunW : HealthGServer := (svW.start true true none).2

/-- C7: for each of the queries `GetLatestReport`, `GetPanorama`, `GetView`
and `GetInference`, a nil store result becomes an error with a
human-readable message and no result, and a non-nil result is returned
unchanged with no error. -/
theorem query_nil_error (sv : HealthGServer) (subject observer : String) :
    (sv.store.getLatestReport subject = none →
      sv.getLatestReportRPC subject = .error ("No report for " ++ subject)) ∧
    (∀ r, sv.store.getLatestReport subject = some r →
      sv.getLatestReportRPC subject = .ok r) ∧
    (sv.store.getPanorama subject = none →
      sv.getPanoramaRPC subject = .error ("No panorama for " ++ subject)) ∧
    (∀ p, sv.store.getPanorama subject = some p →
      sv.getPanoramaRPC subject = .ok p) ∧
    (sv.store.getView subject observer = none →
      sv.getViewRPC subject observer = .error ("No view for " ++ subject)) ∧
    (∀ v, sv.store.getView subject observer = some v →
      sv.getViewRPC subject observer = .ok v) ∧
    (sv.inferences.lookup subject = none →
      sv.getInferenceRPC subject = .error "inference does not exist for view") ∧
    (∀ i, sv.inferences.lookup subject = some i →
      sv.getInferenceRPC subject = .ok i) := by
  refine ⟨fun h => ?_, fun r h => ?_, fun h => ?_, fun p h => ?_,
         fun h => ?_, fun v h => ?_, fun h => ?_, fun i h => ?_⟩ <;>
    simp [HealthGServer.getLatestReportRPC, HealthGServer.getPanoramaRPC,
          HealthGServer.getViewRPC, HealthGServer.getInferenceRPC, h]

/-- Witness for C7 at a freshly constructed server with an empty store. -/
theorem query_nil_error_witness :
    svW.getLatestReportRPC "x" = .error ("No report for " ++ "x") :=
  (query_nil_error svW "x" "o").1 rfl

/-- C8: with `HoldTime` unconfigured the hold buffer is created with TTL
3 minutes (180 s) and cap 60; with `HoldTime` configured, with the
configured `HoldTime` (seconds) and `HoldListLen`. -/
theorem hold_buffer_config (config : HealthServerConfig) :
    (config.bufConfig.holdTime = 0 →
      (newHealthGServer config).holdBuffer.ttl = 180 ∧
      (newHealthGServer config).holdBuffer.bound = 60) ∧
    (0 < config.bufConfig.holdTime →
      (newHealthGServer config).holdBuffer.ttl = config.bufConfig.holdTime ∧
      (newHealthGServer config).holdBuffer.bound = config.bufConfig.holdListLen) := by
  constructor
  · intro h
    simp [newHealthGServer, h, HOLD_TIME, HOLD_LIST_LEN]
  · intro h
    constructor <;>
      · simp only [newHealthGServer, gt_iff_lt]
        rw [if_pos h]

/-- Witness for C8 at a configuration leaving the hold-buffer options unset. -/
theorem hold_buffer_config_witness :
    (newHealthGServer cfgW).holdBuffer.ttl = 180 ∧
    (newHealthGServer cfgW).holdBuffer.bound = 60 :=
  (hold_buffer_config cfgW).1 rfl

/-- C10: `Start` on a started server fails and leaves the state unchanged;
`Stop` on an unstarted server fails; a successful `Stop` clears the server
handle, stops the inference worker, closes the persistence sink when it is
non-nil, and a subsequent `Start` succeeds again. -/
theorem start_stop_lifecycle (sv : HealthGServer) (dbOpenOk : Bool)
    (persisted : Option (List (Nat × Registration))) (graceful : Bool) :
    (∀ listenOk, sv.serverStarted = true →
      sv.start listenOk dbOpenOk persisted =
        (.error "HealthGServer is already started", sv)) ∧
    (sv.serverStarted = false →
      sv.stop graceful = (.error "HealthGServer has not started", sv)) ∧
    (sv.serverStarted = true →
      (sv.stop graceful).1 = .ok () ∧
      (sv.stop graceful).2.serverStarted = false ∧
      (sv.stop graceful).2.inferenceRunning = false ∧
      (sv.dbNonNil = true → (sv.stop graceful).2.dbOpen = false) ∧
      ((sv.stop graceful).2.start true dbOpenOk persisted).1 = .ok ()) := by
  refine ⟨fun listenOk h => ?_, fun h => ?_, fun h => ?_⟩
  · simp [HealthGServer.start, h]
  · simp [HealthGServer.stop, h]
  · refine ⟨?_, ?_, ?_, fun hdb => ?_, ?_⟩
    · simp [HealthGServer.stop, h]
    · simp [HealthGServer.stop, h]
    · simp [HealthGServer.stop, h]
    · simp [HealthGServer.stop, h, hdb]
    · simp [HealthGServer.stop, HealthGServer.start, h]

/-- Witness for C10 at a concretely started server. -/
theorem start_stop_lifecycle_witness :
    (svRunW.stop true).1 = .ok () :=
  ((start_stop_lifecycle svRunW true none true).2.2 rfl).1

/-- Ingestion with the filter disabled can only accept or fail. -/
theorem addReport_false_result (st : StoreState) (r : Report) :
    (st.addReport r false).1 = .accepted ∨ (st.addReport r false).1 = .failed := by
  unfold StoreState.addReport
  cases h : r.structOk <;> simp [h]

/-- C5: a locally submitted report is ingested with `filter=false`, under
which the store's `IGNORED` outcome is unreachable, so `SubmitReport` never
replies `IGNORED` and never reaches the should-not-ignore error branch: its
result is always the invalid-handle error, `ACCEPTED`, or `FAILED`. -/
theorem submit_report_never_ignored (sv : HealthGServer) (handle : Nat)
    (report : Report) (now : Nat) :
    ((sv.store.addReport report false).1 = .accepted ∨
      (sv.store.addReport report false).1 = .failed) ∧
    ((sv.submitReport handle report now).1 = .error "Invalid submission handle" ∨
      (sv.submitReport handle report now).1 = .ok .accepted ∨
      (sv.submitReport handle report now).1 = .ok .failed) := by
  constructor
  · exact addReport_false_result sv.store report
  · unfold HealthGServer.submitReport
    cases hv : (sv.validateHandle handle report now).1
    · simp [hv]
    · simp only [hv, Bool.not_true, Bool.false_eq_true, if_false]
      unfold HealthGServer.ingestLocal
      rcases addReport_false_result (sv.validateHandle handle report now).2.store
        report with hr | hr <;> simp [hr]

/-- After `AddSubject`, the subject is present in the watch list. -/
theorem addSubject_lookup_isSome (st : StoreState) (o : String) (now : Nat) :
    (((st.addSubject o now).2).watchList.lookup o).isSome = true := by
  unfold StoreState.addSubject
  cases h : (st.watchList.lookup o).isSome <;> simp [h]

/-- A Register that allocates reports the fresh handle in the new table. -/
theorem register_alloc_state (sv : HealthGServer) (m o : String) (now : Nat)
    (h : findReg sv.registrations m o = none) :
    sv.register m o now =
      (let mh := maxHandle sv.registrations
       let hdl := if sv.nextHandle > mh then sv.nextHandle else mh + 1
       (hdl, { sv with
                 store := (sv.store.addSubject o now).2
                 registrations :=
                   (hdl, { module := m, observer := o, handle := hdl,
                           time := now }) :: sv.registrations
                 nextHandle := hdl + 1 })) := by
  simp only [HealthGServer.register, h]

/-- C9: a `Register` call that allocates a new handle also adds the
registering observer to the watch list, and records the new registration
with `next_handle` advanced past it; a duplicate `Register` returns the
existing handle and modifies nothing. -/
theorem register_watchlist (sv : HealthGServer) (m o : String) (now : Nat) :
    (findReg sv.registrations m o = none →
      (((sv.register m o now).2.store.watchList.lookup o).isSome = true ∧
       (sv.register m o now).2.registrations =
         ((sv.register m o now).1,
          { module := m, observer := o, handle := (sv.register m o now).1,
            time := now }) :: sv.registrations ∧
       (sv.register m o now).2.nextHandle = (sv.register m o now).1 + 1)) ∧
    (∀ p, findReg sv.registrations m o = some p →
      sv.register m o now = (p.1, sv)) := by
  constructor
  · intro h
    rw [register_alloc_state sv m o now h]
    exact ⟨addSubject_lookup_isSome _ _ _, rfl, rfl⟩
  · intro p h
    simp [HealthGServer.register, h]

/-- Witness for C9: the first registration on a fresh server puts the
observer on the watch list. -/
theorem register_watchlist_witness :
    (((svW.register "mod" "obs1" 3).2.store.watchList.lookup "obs1").isSome = true) ∧
    (svW.register "mod" "obs1" 3).2.nextHandle = (svW.register "mod" "obs1" 3).1 + 1 :=
  ⟨((register_watchlist svW "mod" "obs1" 3).1 rfl).1,
   ((register_watchlist svW "mod" "obs1" 3).1 rfl).2.2⟩

/-- Local ingestion never touches the registration table. -/
theorem ingestLocal_registrations (sv : HealthGServer) (r : Report) :
    (sv.ingestLocal r).2.registrations = sv.registrations := by
  unfold HealthGServer.ingestLocal
  cases h : (sv.store.addReport r false).1 <;> simp [h]

/-- `AddReport` never touches the watch list. -/
theorem addReport_watchList (st : StoreState) (r : Report) (f : Bool) :
    (st.addReport r f).2.watchList = st.watchList := by
  unfold StoreState.addReport
  cases h : r.structOk <;> simp [h] <;> split <;> rfl

/-- Local ingestion never touches the watch list. -/
theorem ingestLocal_watchList (sv : HealthGServer) (r : Report) :
    (sv.ingestLocal r).2.store.watchList = sv.store.watchList := by
  unfold HealthGServer.ingestLocal
  cases h : (sv.store.addReport r false).1 <;>
    simp [h, addReport_watchList]

/-- C2: a `SubmitReport` whose handle is absent from the active map but
present in the old registrations is promoted and proceeds when the report's
observer matches the stored one (the observer also entering the watch
list); with a mismatching observer, or a handle in neither map, it fails
with the invalid-handle error and the state is unchanged. -/
theorem submit_report_old_registration (sv : HealthGServer) (handle : Nat)
    (report : Report) (now : Nat) :
    sv.registrations.lookup handle = none →
    ((∀ om oldReg, sv.oldRegistrations = some om →
        om.lookup handle = some oldReg →
        ((oldReg.observer = report.observer →
           sv.submitReport handle report now =
             ({ sv with
                  registrations := (handle, oldReg) :: sv.registrations,
                  store := (sv.store.addSubject oldReg.observer now).2 }).ingestLocal
               report ∧
           (sv.submitReport handle report now).2.registrations.lookup handle =
             some oldReg ∧
           (((sv.submitReport handle report now).2.store.watchList.lookup
               oldReg.observer).isSome = true)) ∧
         (oldReg.observer ≠ report.observer →
           sv.submitReport handle report now =
             (.error "Invalid submission handle", sv)))) ∧
     (∀ om, sv.oldRegistrations = some om → om.lookup handle = none →
       sv.submitReport handle report now = (.error "Invalid submission handle", sv)) ∧
     (sv.oldRegistrations = none →
       sv.submitReport handle report now = (.error "Invalid submission handle", sv))) := by
  intro h
  refine ⟨fun om oldReg hom hold => ⟨fun hobs => ?_, fun hobs => ?_⟩,
          fun om hom hold => ?_, fun hold => ?_⟩
  · have heq : sv.submitReport handle report now =
        ({ sv with
             registrations := (handle, oldReg) :: sv.registrations,
             store := (sv.store.addSubject oldReg.observer now).2 }).ingestLocal
          report := by
      simp [HealthGServer.submitReport, HealthGServer.validateHandle, h, hom,
            hold, hobs]
    refine ⟨heq, ?_, ?_⟩
    · rw [heq, ingestLocal_registrations]
      exact List.lookup_cons_self
    · rw [heq, ingestLocal_watchList]
      exact addSubject_lookup_isSome _ _ _
  · simp [HealthGServer.submitReport, HealthGServer.validateHandle, h, hom,
          hold, beq_iff_eq, hobs]
  · simp [HealthGServer.submitReport, HealthGServer.validateHandle, h, hom, hold]
  · simp [HealthGServer.submitReport, HealthGServer.validateHandle, h, hold]

def oldRegW : Registration :=
  { module := "mod", observer := "obs1", handle := 10000, time := 0 }

def svOldW : HealthGServer := { svW with oldRegistrations := some [(10000, oldRegW)] }

def rptGoodW : Report := { observer := "obs1", subject := "db", observation := some 1 }

def rptBadW : Report := { observer := "other", subject := "db", observation := some 1 }

/-- Witness for C2: a restored registration is promoted when the observer
matches and rejected when it does not. -/
theorem submit_report_old_registration_witness :
    ((svOldW.submitReport 10000 rptGoodW 5).2.registrations.lookup 10000 =
      some oldRegW) ∧
    svOldW.submitReport 10000 rptBadW 5 = (.error "Invalid submission handle", svOldW) :=
  ⟨(((submit_report_old_registration svOldW 10000 rptGoodW 5 rfl).1 _ _ rfl rfl).1
      rfl).2.1,
   ((submit_report_old_registration svOldW 10000 rptBadW 5 rfl).1 _ _ rfl rfl).2
     (by decide)⟩

/-- Appending an element and dropping at most the original length keeps it. -/
theorem mem_drop_append {α : Type} (l : List α) (a : α) (k : Nat)
    (h : k ≤ l.length) : a ∈ (l ++ [a]).drop k := by
  rw [List.drop_append_of_le_length h]
  exact List.mem_append_right _ (List.mem_singleton_self a)

/-- A report put on hold is present in the hold buffer whenever the
per-subject cap is positive. -/
theorem cacheList_set_mem (c : CacheList) (subject : String) (r : Report)
    (now : Nat) (hb : 0 < c.bound) :
    (now, r) ∈ (((c.set subject r now).items.lookup subject).getD []) := by
  unfold CacheList.set
  simp only [List.lookup_cons_self, Option.getD_some]
  split
  · apply mem_drop_append
    simp only [List.length_append, List.length_singleton]
    omega
  · exact List.mem_append_right _ (List.mem_singleton_self _)

/-- C3: a `LearnReport` of kind `NORMAL` is dispatched on the ingestion
result: `IGNORED` parks the report in the hold buffer and replies ignored,
`ACCEPTED` records the source as interested and spawns asynchronous
analysis (which enqueues inference for the subject), `FAILED` replies
failed; with `FilterSubmission` set and the subject not watched the result
is `IGNORED` and the report appears in the hold buffer. -/
theorem learn_report_normal (sv : HealthGServer) (sourceId : String)
    (report : Report) (now : Nat) :
    ((sv.store.addReport report sv.config.filterSubmission).1 = .ignored →
      sv.learnReport sourceId .normal report now =
        (.ignored, { sv with
            store := (sv.store.addReport report sv.config.filterSubmission).2,
            holdBuffer := sv.holdBuffer.set report.subject report now })) ∧
    ((sv.store.addReport report sv.config.filterSubmission).1 = .failed →
      sv.learnReport sourceId .normal report now =
        (.failed, { sv with
            store := (sv.store.addReport report sv.config.filterSubmission).2 })) ∧
    ((sv.store.addReport report sv.config.filterSubmission).1 = .accepted →
      sv.learnReport sourceId .normal report now =
        (.accepted, { sv with
            store := (sv.store.addReport report sv.config.filterSubmission).2,
            interested := (sourceId, report.subject) :: sv.interested,
            pending := sv.pending ++ [.analyze report false] })) ∧
    (∀ (w : HealthGServer) (t : Nat),
      report.subject ∈ (w.analyzeReport report false t).inferQueue) ∧
    (sv.config.filterSubmission = true →
      sv.store.watchList.lookup report.subject = none →
      report.structOk = true →
      ((sv.learnReport sourceId .normal report now).1 = .ignored ∧
       (0 < sv.holdBuffer.bound →
         (now, report) ∈
           (((sv.learnReport sourceId .normal report now).2.holdBuffer.items.lookup
               report.subject).getD [])))) := by
  have hig : ∀ (h : (sv.store.addReport report sv.config.filterSubmission).1 = .ignored),
      sv.learnReport sourceId .normal report now =
        (.ignored, { sv with
            store := (sv.store.addReport report sv.config.filterSubmission).2,
            holdBuffer := sv.holdBuffer.set report.subject report now }) := by
    intro h
    simp [HealthGServer.learnReport, h]
  refine ⟨hig, fun h => ?_, fun h => ?_, fun w t => ?_, fun hf hw hok => ?_⟩
  · simp [HealthGServer.learnReport, h]
  · simp [HealthGServer.learnReport, h]
  · simp [HealthGServer.analyzeReport]
  · have hi : (sv.store.addReport report sv.config.filterSubmission).1 = .ignored := by
      unfold StoreState.addReport
      simp [hf, hw, hok]
    rw [hig hi]
    exact ⟨rfl, fun hb => cacheList_set_mem _ _ _ _ hb⟩

def rptW : Report := { observer := "o1", subject := "db", observation := some 1 }

/-- Witness for C3: with the filter on and the subject unwatched, the
report is ignored and parked in the hold buffer. -/
theorem learn_report_normal_witness :
    ((svW.learnReport "peer" .normal rptW 7).1 = .ignored) ∧
    (7, rptW) ∈
      (((svW.learnReport "peer" .normal rptW 7).2.holdBuffer.items.lookup
          "db").getD []) :=
  ⟨((learn_report_normal svW "peer" rptW 7).2.2.2.2 rfl rfl rfl).1,
   ((learn_report_normal svW "peer" rptW 7).2.2.2.2 rfl rfl rfl).2 (by decide)⟩

/-- Every count in the store GC's retired map is positive. -/
theorem storeGC_counts_pos (st : StoreState) (threshold : Nat) (relative : Bool)
    (now : Nat) :
    ∀ p ∈ (storeGC st threshold relative now).2, 0 < p.2 := by
  intro p hp
  unfold storeGC at hp
  simp only [List.mem_map] at hp
  obtain ⟨s, hs, rfl⟩ := hp
  simp only [List.mem_dedup, List.mem_map] at hs
  obtain ⟨r, hr, rfl⟩ := hs
  have hmem : r ∈ (st.reports.filter _).filter (fun x => x.subject == r.subject) :=
    List.mem_filter.mpr ⟨hr, by simp⟩
  simpa using List.length_pos_of_mem hmem

/-- C6: with a positive `gc_frequency` each loop iteration calls the
store's GC with the configured threshold and relative flag and enqueues a
re-inference for every subject with a nonzero retired count; once the
server handle is cleared the loop performs no further GC calls and
terminates, and `Start` spawns the loop exactly when `gc_frequency > 0`. -/
theorem gc_loop_spec (sv : HealthGServer) (now fuel : Nat) (dbOpenOk : Bool)
    (persisted : Option (List (Nat × Registration))) :
    (sv.serverStarted = false → sv.gcLoop now fuel = (sv, 0)) ∧
    (sv.serverStarted = true →
      sv.gcLoop now (fuel + 1) =
        (((sv.gcIter now).gcLoop now fuel).1,
         ((sv.gcIter now).gcLoop now fuel).2 + 1)) ∧
    ((sv.gcIter now).store = (storeGC sv.store sv.gcThreshold sv.gcRelative now).1) ∧
    ((sv.gcIter now).inferQueue =
      sv.inferQueue ++
        (storeGC sv.store sv.gcThreshold sv.gcRelative now).2.map (fun p => p.1)) ∧
    (∀ p ∈ (storeGC sv.store sv.gcThreshold sv.gcRelative now).2,
      0 < p.2 ∧ p.1 ∈ (sv.gcIter now).inferQueue) ∧
    (sv.serverStarted = false →
      (sv.start true dbOpenOk persisted).2.gcSpawned = decide (0 < sv.gcFrequency)) := by
  refine ⟨fun h => ?_, fun h => ?_, rfl, rfl, fun p hp => ?_, fun h => ?_⟩
  · cases fuel <;> simp [HealthGServer.gcLoop, h]
  · simp [HealthGServer.gcLoop, h]
  · refine ⟨storeGC_counts_pos _ _ _ _ p hp, ?_⟩
    have : p.1 ∈ (storeGC sv.store sv.gcThreshold sv.gcRelative now).2.map
        (fun p => p.1) := List.mem_map_of_mem _ hp
    exact List.mem_append_right _ this
  · cases dbOpenOk <;> simp [HealthGServer.start, h]

def rptOldW : Report := { observer := "oG", subject := "dbg", observation := some 0 }

def svGCW : HealthGServer :=
  { svW with serverStarted := true, gcThreshold := 2, gcRelative := false,
             store := { watchList := [], reports := [rptOldW] } }

/-- Witness for C6: a stopped server performs no GC calls; a running one
retires an old observation and enqueues its subject for re-inference. -/
theorem gc_loop_spec_witness :
    svW.gcLoop 0 5 = (svW, 0) ∧
    (0 < (("dbg", 1) : String × Nat).2 ∧
      ("dbg", 1).1 ∈ (svGCW.gcIter 10).inferQueue) ∧
    (svW.start true true none).2.gcSpawned = decide (0 < svW.gcFrequency) :=
  ⟨(gc_loop_spec svW 0 5 true none).1 rfl,
   (gc_loop_spec svGCW 10 0 true none).2.2.2.2.1 ("dbg", 1) (by decide),
   (gc_loop_spec svW 0 5 true none).2.2.2.2.2 rfl⟩

/-- Folding max over handles bounded by `n` stays below `n`. -/
theorem foldl_max_lt (l : List (Nat × Registration)) (n : Nat) :
    ∀ a, a < n → (∀ p ∈ l, p.1 < n) →
      l.foldl (fun a p => max a p.1) a < n := by
  induction l with
  | nil => intro a ha _; exact ha
  | cons p t ih =>
    intro a ha hb
    simp only [List.foldl_cons]
    exact ih _ (Nat.max_lt.mpr ⟨ha, hb p (List.mem_cons_self _ _)⟩)
      (fun q hq => hb q (List.mem_cons_of_mem _ hq))

/-- The scanned maximum handle stays below a bound dominating all keys. -/
theorem maxHandle_lt (l : List (Nat × Registration)) (n : Nat) (hpos : 0 < n)
    (hb : ∀ p ∈ l, p.1 < n) : maxHandle l < n :=
  foldl_max_lt l n 0 hpos hb

/-- No registration matches when no entry carries the pair. -/
theorem findReg_eq_none (l : List (Nat × Registration)) (m o : String)
    (h : ∀ p ∈ l, ¬(p.2.module = m ∧ p.2.observer = o)) :
    findReg l m o = none := by
  unfold findReg
  rw [List.find?_eq_none]
  intro x hx hpred
  simp only [Bool.and_eq_true, beq_iff_eq] at hpred
  exact h x hx hpred

/-- When no pair matches and the table's keys sit below `next_handle`,
`Register` allocates exactly `next_handle`. -/
theorem register_alloc_next (sv : HealthGServer) (m o : String) (now : Nat)
    (hnone : findReg sv.registrations m o = none)
    (hmax : maxHandle sv.registrations < sv.nextHandle) :
    sv.register m o now =
      (sv.nextHandle,
       { sv with
           store := (sv.store.addSubject o now).2
           registrations :=
             (sv.nextHandle,
              { module := m, observer := o, handle := sv.nextHandle,
                time := now }) :: sv.registrations
           nextHandle := sv.nextHandle + 1 }) := by
  simp only [HealthGServer.register, hnone, gt_iff_lt]
  rw [if_pos hmax]

/-- Handles returned by a run of pairwise fresh, pairwise distinct
registrations are consecutive from `next_handle`. -/
theorem runRegisters_handles (reqs : List (String × String)) :
    ∀ (sv : HealthGServer) (now : Nat),
    (∀ p ∈ sv.registrations, p.1 < sv.nextHandle) →
    0 < sv.nextHandle →
    (∀ p ∈ sv.registrations, (p.2.module, p.2.observer) ∉ reqs) →
    reqs.Pairwise (· ≠ ·) →
    (runRegisters sv reqs now).1 = List.range' sv.nextHandle reqs.length := by
  induction reqs with
  | nil => intro sv now _ _ _ _; rfl
  | cons mo rest ih =>
    intro sv now hbound hpos hfresh hdist
    obtain ⟨m, o⟩ := mo
    have hnone : findReg sv.registrations m o = none := by
      apply findReg_eq_none
      intro p hp hmo
      have h1 := hfresh p hp
      rw [hmo.1, hmo.2] at h1
      exact h1 (List.mem_cons_self _ _)
    have hmax : maxHandle sv.registrations < sv.nextHandle :=
      maxHandle_lt _ _ hpos hbound
    have halloc := register_alloc_next sv m o now hnone hmax
    have hdist' := List.pairwise_cons.mp hdist
    simp only [runRegisters, halloc, List.length_cons, List.range'_succ]
    congr 1
    exact ih _ now
      (by
        intro p hp
        rcases List.mem_cons.mp hp with rfl | hp'
        · exact Nat.lt_succ_self _
        · exact Nat.lt_succ_of_lt (hbound p hp'))
      (Nat.succ_pos _)
      (by
        intro p hp
        rcases List.mem_cons.mp hp with rfl | hp'
        · intro hmem
          exact hdist'.1 _ hmem rfl
        · intro hmem
          exact hfresh p hp' (List.mem_cons_of_mem _ hmem))
      hdist'.2

/-- A `Register` that finds a match returns its handle and changes nothing. -/
theorem register_found (sv : HealthGServer) (m o : String) (now : Nat)
    (pr : Nat × Registration) (h : findReg sv.registrations m o = some pr) :
    sv.register m o now = (pr.1, sv) := by
  simp [HealthGServer.register, h]

/-- After any `Register`, the pair's lookup yields the returned handle. -/
theorem register_findReg_fst (sv : HealthGServer) (m o : String) (now : Nat) :
    (findReg (sv.register m o now).2.registrations m o).map (fun p => p.1) =
      some (sv.register m o now).1 := by
  cases h : findReg sv.registrations m o with
  | some p => simp [HealthGServer.register, h]
  | none =>
    simp only [HealthGServer.register, h]
    simp [findReg]

/-- A `Register` for a different pair preserves an existing pair's match. -/
theorem register_findReg_stable (sv : HealthGServer) (m' o' m o : String)
    (now : Nat) (pr : Nat × Registration)
    (h : findReg sv.registrations m o = some pr) :
    findReg (sv.register m' o' now).2.registrations m o = some pr := by
  cases hf : findReg sv.registrations m' o' with
  | some q => simp [HealthGServer.register, hf, h]
  | none =>
    by_cases hmo : m' = m ∧ o' = o
    · exfalso
      rw [hmo.1, hmo.2, h] at hf
      exact Option.noConfusion hf
    · simp only [HealthGServer.register, hf]
      unfold findReg
      rw [List.find?_cons_of_neg]
      · exact h
      · simpa [Bool.and_eq_true, beq_iff_eq] using hmo

/-- A whole run of registrations preserves an existing pair's match. -/
theorem runRegisters_findReg_stable (reqs : List (String × String)) :
    ∀ (sv : HealthGServer) (now : Nat) (m o : String) (pr : Nat × Registration),
    findReg sv.registrations m o = some pr →
    findReg (runRegisters sv reqs now).2.registrations m o = some pr := by
  induction reqs with
  | nil => intro sv now m o pr h; exact h
  | cons mo rest ih =>
    intro sv now m o pr h
    obtain ⟨m', o'⟩ := mo
    simp only [runRegisters]
    exact ih _ now m o pr (register_findReg_stable sv m' o' m o now pr h)

/-- C1: two `Register` calls with the same (module, observer) pair return
the same handle, in any surrounding sequence of registrations; on a fresh
server the first handle is the floor 10000, and any pairwise distinct
sequence receives the consecutive, strictly increasing handles
10000, 10001, …. -/
theorem register_handles :
    (∀ (sv : HealthGServer) (reqs1 reqs2 : List (String × String)) (m o : String)
       (now : Nat),
      (((runRegisters ((runRegisters sv reqs1 now).2.register m o now).2 reqs2
            now).2).register m o now).1 =
        ((runRegisters sv reqs1 now).2.register m o now).1) ∧
    (∀ (cfg : HealthServerConfig) (m o : String) (now : Nat),
      ((newHealthGServer cfg).register m o now).1 = HANDLE_START) ∧
    (∀ (cfg : HealthServerConfig) (reqs : List (String × String)) (now : Nat),
      reqs.Pairwise (· ≠ ·) →
      ((runRegisters (newHealthGServer cfg) reqs now).1 =
        List.range' HANDLE_START reqs.length ∧
       (runRegisters (newHealthGServer cfg) reqs now).1.Pairwise (· < ·))) := by
  refine ⟨?_, ?_, ?_⟩
  · intro sv reqs1 reqs2 m o now
    have hA := register_findReg_fst (runRegisters sv reqs1 now).2 m o now
    cases hfr : findReg
        (((runRegisters sv reqs1 now).2.register m o now).2).registrations m o with
    | none =>
      rw [hfr] at hA
      exact Option.noConfusion hA
    | some pr =>
      rw [hfr] at hA
      have hstab := runRegisters_findReg_stable reqs2
        ((runRegisters sv reqs1 now).2.register m o now).2 now m o pr hfr
      rw [register_found _ _ _ _ _ hstab]
      exact Option.some.inj hA
  · intro cfg m o now
    have hnone : findReg (newHealthGServer cfg).registrations m o = none := rfl
    have hmax : maxHandle (newHealthGServer cfg).registrations <
        (newHealthGServer cfg).nextHandle := by
      show (0 : Nat) < 10000
      decide
    rw [register_alloc_next _ _ _ _ hnone hmax]
    rfl
  · intro cfg reqs now hdist
    have h := runRegisters_handles reqs (newHealthGServer cfg) now
      (by intro p hp; simp [newHealthGServer] at hp)
      (by show (0 : Nat) < 10000; decide)
      (by intro p hp; simp [newHealthGServer] at hp)
      hdist
    refine ⟨h, ?_⟩
    rw [h]
    exact List.pairwise_lt_range' _ _

/-- Witness for C1: two distinct registrations on a fresh server receive
the consecutive handles 10000 and 10001. -/
theorem register_handles_witness :
    (runRegisters (newHealthGServer cfgW) [("m", "a"), ("m", "b")] 0).1 =
      List.range' HANDLE_START 2 :=
  (register_handles.2.2 cfgW [("m", "a"), ("m", "b")] 0 (by simp)).1

def rptHeldW : Report := { observer := "obsB", subject := "db", observation := some 5 }

def svHoldW : HealthGServer :=
  { svW with holdBuffer := { ttl := 180, bound := 60, items := [("db", [(0, rptHeldW)])] } }

/-- Counterexample to C4: an explicit `Observe` of a subject with an
unexpired held report makes the node interested in it but re-ingests
nothing, and the hold-buffer entry is not cleared. -/
theorem observe_no_drain_counterexample :
    svHoldW.holdBuffer.get "db" 10 = [(0, rptHeldW)] ∧
    (svHoldW.observe "db" 10).1 = true ∧
    (svHoldW.observe "db" 10).2.holdBuffer.items.lookup "db" = some [(0, rptHeldW)] ∧
    (svHoldW.observe "db" 10).2.store.reports = [] := by
  refine ⟨by decide, by decide, by decide, by decide⟩

/-- Draining the held reports appends exactly the structurally valid ones
to the store and touches nothing else. -/
theorem drain_foldl (items : List (Nat × Report)) :
    ∀ sv : HealthGServer,
    ((items.foldl
        (fun acc e => { acc with store := (acc.store.addReport e.2 false).2 })
        sv).store.reports =
      sv.store.reports ++ (items.map (fun e => e.2)).filter Report.structOk) ∧
    ((items.foldl
        (fun acc e => { acc with store := (acc.store.addReport e.2 false).2 })
        sv).holdBuffer = sv.holdBuffer) ∧
    ((items.foldl
        (fun acc e => { acc with store := (acc.store.addReport e.2 false).2 })
        sv).pending = sv.pending) ∧
    ((items.foldl
        (fun acc e => { acc with store := (acc.store.addReport e.2 false).2 })
        sv).inferQueue = sv.inferQueue) := by
  induction items with
  | nil => intro sv; simp
  | cons e t ih =>
    intro sv
    simp only [List.foldl_cons, List.map_cons]
    obtain ⟨ih1, ih2, ih3, ih4⟩ :=
      ih { sv with store := (sv.store.addReport e.2 false).2 }
    refine ⟨?_, ih2, ih3, ih4⟩
    rw [ih1]
    cases hok : (e.2).structOk with
    | false =>
      have hst : (sv.store.addReport e.2 false).2.reports = sv.store.reports := by
        unfold StoreState.addReport
        simp [hok]
      rw [hst]
      simp [List.filter_cons, hok]
    | true =>
      have hst : (sv.store.addReport e.2 false).2.reports =
          sv.store.reports ++ [e.2] := by
        unfold StoreState.addReport
        simp [hok]
      rw [hst]
      simp [List.filter_cons, hok]

/-- C4 (amended): the hold-buffer drain for a subject happens in
`AnalyzeReport` with `check_hold` set — i.e. after an accepted locally
submitted report about the subject — and only when some held entry is
non-expired: the non-expired entries are re-ingested without filtering,
the subject's hold-buffer entry is cleared and a subscription broadcast is
spawned.  An explicit `Observe` adds the subject to the watch list and
broadcasts a subscription but leaves the hold buffer and the stored
reports untouched. -/
theorem analyze_report_drain (sv : HealthGServer) (report : Report) (now : Nat) :
    (sv.holdBuffer.get report.subject now ≠ [] →
      ((sv.analyzeReport report true now).store.reports =
         sv.store.reports ++
           ((sv.holdBuffer.get report.subject now).map (fun e => e.2)).filter
             Report.structOk ∧
       (sv.analyzeReport report true now).holdBuffer =
         sv.holdBuffer.empty report.subject ∧
       AsyncTask.subscribeSubject report.subject ∈
         (sv.analyzeReport report true now).pending ∧
       (sv.analyzeReport report true now).inferQueue =
         sv.inferQueue ++ [report.subject])) ∧
    (sv.holdBuffer.get report.subject now = [] →
      sv.analyzeReport report true now =
        { sv with inferQueue := sv.inferQueue ++ [report.subject] }) ∧
    (∀ subject,
      (sv.observe subject now).2.holdBuffer = sv.holdBuffer ∧
      (sv.observe subject now).2.store.reports = sv.store.reports ∧
      AsyncTask.subscribeSubject subject ∈ (sv.observe subject now).2.pending) ∧
    (∀ handle, (sv.submitReport handle report now).1 = .ok .accepted →
      AsyncTask.analyze report true ∈ (sv.submitReport handle report now).2.pending) := by
  refine ⟨fun hne => ?_, fun hemp => ?_, fun subject => ?_, fun handle hacc => ?_⟩
  · have hb : (sv.holdBuffer.get report.subject now).isEmpty = false :=
      List.isEmpty_eq_false.mpr hne
    obtain ⟨d1, d2, d3, d4⟩ := drain_foldl (sv.holdBuffer.get report.subject now) sv
    simp only [HealthGServer.analyzeReport, hb, Bool.false_eq_true, if_false,
               if_true]
    exact ⟨d1, by rw [d2], by rw [d3]; simp, by rw [d4]⟩
  · have hb : (sv.holdBuffer.get report.subject now).isEmpty = true := by
      rw [hemp]; rfl
    simp [HealthGServer.analyzeReport, hb]
  · unfold HealthGServer.observe StoreState.addSubject
    cases h : (sv.store.watchList.lookup subject).isSome <;> simp [h]
  · unfold HealthGServer.submitReport at hacc ⊢
    cases hv : (sv.validateHandle handle report now).1 with
    | false => simp [hv] at hacc
    | true =>
      simp only [hv, Bool.not_true, Bool.false_eq_true, if_false] at hacc ⊢
      unfold HealthGServer.ingestLocal at hacc ⊢
      cases hr : ((sv.validateHandle handle report now).2.store.addReport
          report false).1 with
      | ignored => simp [hr] at hacc
      | failed => simp [hr] at hacc
      | accepted => simp [hr]

def rptDrainW : Report := { observer := "oA", subject := "db", observation := some 6 }

/-- Witness for C4 (amended): analysing an accepted local report about a
subject with one unexpired held report re-ingests it. -/
theorem analyze_report_drain_witness :
    (svHoldW.analyzeReport rptDrainW true 10).store.reports =
      svHoldW.store.reports ++
        ((svHoldW.holdBuffer.get "db" 10).map (fun e => e.2)).filter
          Report.structOk :=
  ((analyze_report_drain svHoldW rptDrainW 10).1 (by decide)).1

end Panorama
